import Mathlib

/-!
Shallow embedding of the x402 local facilitator (src/index.ts).

The repository is a single Express application with three POST/GET routes.
All effectful external calls (zod schema parsing, x402 createSigner /
createConnectedClient / verify / settle, and the ethers.js provider, wallet,
ERC-20 contract, decimals lookup, transfer and confirmation wait) are
represented by an oracle structure Ext: each call site reads its outcome
(success value or thrown error, already stringified) from the oracle.  Each
handler is embedded as a pure function from the oracle, the environment
variables and the imported network allow-lists to a pair of
  - a trace: the list of external calls the handler performed, in order, and
  - the HTTP response it sends (or, for GET /supported which has no
    try/catch, an Except that models an uncaught exception).
Ordering and "no call happens" properties are stated over the trace.
-/

namespace X402Facilitator

/-- Result of the x402 PaymentRequirementsSchema.parse call: the handlers only
read the network field. -/
structure PaymentRequirements where
  network : String
  deriving DecidableEq, Repr

/-- Scheme-specific payload of a PaymentPayload: the settle handler only tests
whether an authorization object (with its from address) is present
(line 194 of src/index.ts: if ("authorization" in paymentPayload.payload)). -/
inductive PayloadBody where
  | authorization (fromAddr : String)
  | other
  deriving DecidableEq, Repr

/-- Result of the x402 PaymentPayloadSchema.parse call. -/
structure PaymentPayload where
  payload : PayloadBody
  deriving DecidableEq, Repr

/-- The capability handle passed to verify or settle: either a connected
client built by createConnectedClient(network), or a signer built by
createSigner(network, privateKey). -/
inductive Client where
  | connectedClient (network : String)
  | signer (network : String) (key : String)
  deriving DecidableEq, Repr

/-- Verification verdict returned by the external verify call; passed through
verbatim by the handler, so only an opaque payload is modelled. -/
structure VerifyResult where
  isValid : Bool
  deriving DecidableEq, Repr

/-- Settlement receipt returned by the external settle call.  The handler
never reads its fields; success and transaction stand for its contents. -/
structure SettlementResult where
  success : Bool
  transaction : String
  deriving DecidableEq, Repr

/-- Cashback part of the successful settle response
(lines 216-220 of src/index.ts). -/
structure CashbackRecord where
  amount : Nat
  txHash : Option String
  percent : Int
  deriving DecidableEq, Repr

/-- Body of the successful settle response (lines 213-221 of src/index.ts). -/
structure SettleOkBody where
  success : Bool
  settlement : SettlementResult
  cashback : CashbackRecord
  deriving DecidableEq, Repr

/-- One entry of the supported kinds list returned by GET /supported.  The
extra field is some feePayer for the SVM kind and none for the EVM kind;
the inner option is the feePayer value itself (undefined when the signer is
not an SVM signer wallet). -/
structure SupportedKind where
  x402Version : Nat
  scheme : String
  network : String
  extra : Option (Option String)
  deriving DecidableEq, Repr

/-- HTTP response of a route with a try/catch boundary: ok is res.json(body),
badRequest is res.status(400).json with the given error string. -/
inductive Response (α : Type) where
  | ok (body : α)
  | badRequest (error : String)
  deriving DecidableEq, Repr

/-- External calls a handler can perform, recorded in order in the trace. -/
inductive Event where
  | parseRequirementsEv
  | parsePayloadEv
  | createConnectedClientEv (network : String)
  | createSignerEv (network : String) (key : String)
  | verifyEv (client : Client)
  | settleEv (signer : Client)
  | sendEvmCashbackEv (toAddr : String) (tokenAddress : Option String) (amount : Nat)
  | contractConstructEv
  | decimalsEv
  | transferEv (toAddr : String) (decimalAmount : Nat)
  | waitEv (txHash : String)
  deriving DecidableEq, Repr

/-- Environment variables read by src/index.ts.  The private keys are the
values after the startup defaulting to "" (lines 24-27); EVM_CASHBACK_TOKEN
and CASHBACK_PERCENT are read per request and may be absent. -/
structure Env where
  EVM_PRIVATE_KEY : String
  SVM_PRIVATE_KEY : String
  EVM_CASHBACK_TOKEN : Option String
  CASHBACK_PERCENT : Option String
  deriving DecidableEq, Repr

/-- Oracle for the ethers.js calls inside sendEvmCashback: provider, wallet
and ERC-20 contract construction (folded into one fallible step, since any of
the three constructors can throw before the first RPC call), the decimals()
lookup, the transfer submission keyed by its arguments, and tx.wait keyed by
the transaction hash.  Errors are the stringified thrown values. -/
structure EvmExt where
  constructErr : Option String
  decimalsResult : Except String Nat
  transferResult : String → Nat → Except String String
  waitResult : String → Except String Unit

/-- Oracle for all external calls of one request: schema parses, x402 client
and signer factories (an error means the call threw), the verify and settle
calls, the JavaScript Number coercion used on CASHBACK_PERCENT, the
isSvmSignerWallet address projection used by GET /supported, and the ethers
layer used by sendEvmCashback. -/
structure Ext where
  parseRequirements : Except String PaymentRequirements
  parsePayload : Except String PaymentPayload
  createConnectedClientErr : String → Option String
  createSignerErr : String → String → Option String
  verifyResult : Except String VerifyResult
  settleResult : Except String SettlementResult
  number : String → Int
  signerAddress : String → String → Option String
  evm : EvmExt

/-- JavaScript s1 || s2 on strings and undefined: the default is taken when
the variable is unset or the empty string. -/
def jsOr (o : Option String) (d : String) : String :=
  match o with
  | none => d
  | some s => if s = "" then d else s

/-- JavaScript String(new Error(msg)). -/
def jsErrorString (msg : String) : String :=
  "Error: " ++ msg

/-- JavaScript truthiness of a string-or-undefined value: false for undefined
and for the empty string. -/
def jsTruthy (o : Option String) : Bool :=
  match o with
  | none => false
  | some s => s != ""

/-- The static cashback amount of line 191 of src/index.ts
(const cashbackAmount = 1). -/
def cashbackAmountConst : Nat := 1

/-- Payer extraction of lines 192-196 of src/index.ts: defined exactly when
the scheme-specific payload carries an authorization object. -/
def payerOf (ppay : PaymentPayload) : Option String :=
  match ppay.payload with
  | .authorization fromAddr => some fromAddr
  | .other => none

/-- Embedding of sendEvmCashback (lines 55-74 of src/index.ts): construct
provider, wallet and contract; read decimals() with a catch falling back to
18; scale the amount by parseUnits (for an integer amount this is
amount * 10 ^ decimals); submit transfer(to, decimalAmount); wait for the
receipt; return the transaction hash. -/
def sendEvmCashback (ext : EvmExt) (toAddr : String) (tokenAddress : Option String)
    (amount : Nat) : List Event × Except String String :=
  let entry := Event.sendEvmCashbackEv toAddr tokenAddress amount
  match ext.constructErr with
  | some e => ([entry, Event.contractConstructEv], .error e)
  | none =>
    let decimals : Nat :=
      match ext.decimalsResult with
      | .error _ => 18
      | .ok d => d
    let decimalAmount := amount * 10 ^ decimals
    match ext.transferResult toAddr decimalAmount with
    | .error e =>
      ([entry, Event.contractConstructEv, Event.decimalsEv, Event.transferEv toAddr decimalAmount], .error e)
    | .ok txHash =>
      match ext.waitResult txHash with
      | .error e =>
        ([entry, Event.contractConstructEv, Event.decimalsEv, Event.transferEv toAddr decimalAmount,
          Event.waitEv txHash], .error e)
      | .ok _ =>
        ([entry, Event.contractConstructEv, Event.decimalsEv, Event.transferEv toAddr decimalAmount,
          Event.waitEv txHash], .ok txHash)

/-- Signer selection of the settle handler (lines 177-184 of src/index.ts):
EVM allow-list first with EVM_PRIVATE_KEY, then SVM allow-list with
SVM_PRIVATE_KEY, otherwise throw new Error("Invalid network") without
constructing anything. -/
def selectSettleSigner (evmNetworks svmNetworks : List String) (ext : Ext) (env : Env)
    (network : String) : List Event × Except String Client :=
  if evmNetworks.contains network then
    match ext.createSignerErr network env.EVM_PRIVATE_KEY with
    | some e => ([Event.createSignerEv network env.EVM_PRIVATE_KEY], .error e)
    | none =>
      ([Event.createSignerEv network env.EVM_PRIVATE_KEY],
       .ok (.signer network env.EVM_PRIVATE_KEY))
  else if svmNetworks.contains network then
    match ext.createSignerErr network env.SVM_PRIVATE_KEY with
    | some e => ([Event.createSignerEv network env.SVM_PRIVATE_KEY], .error e)
    | none =>
      ([Event.createSignerEv network env.SVM_PRIVATE_KEY],
       .ok (.signer network env.SVM_PRIVATE_KEY))
  else
    ([], .error (jsErrorString "Invalid network"))

/-- Cashback dispatch of lines 201-210 of src/index.ts: only when the payer
is truthy and the static amount is positive; EVM networks call
sendEvmCashback with the (possibly undefined) EVM_CASHBACK_TOKEN, SVM
networks only log, every other case leaves the hash null. -/
def cashbackStep (evmNetworks svmNetworks : List String) (ext : Ext) (env : Env)
    (network : String) (payer : Option String) : List Event × Except String (Option String) :=
  if jsTruthy payer && decide (0 < cashbackAmountConst) then
    match payer with
    | some p =>
      if evmNetworks.contains network then
        match sendEvmCashback ext.evm p env.EVM_CASHBACK_TOKEN cashbackAmountConst with
        | (tr, .error e) => (tr, .error e)
        | (tr, .ok h) => (tr, .ok (some h))
      else if svmNetworks.contains network then
        ([], .ok none)
      else
        ([], .ok none)
    | none => ([], .ok none)
  else
    ([], .ok none)

/-- Embedding of the POST /settle handler (lines 170-226 of src/index.ts):
parse both bodies, select the settlement signer by network family, await
settle, compute the cashback record, run the cashback dispatch, and answer
with the composite body; any thrown error is caught at the route boundary
and answered as 400 with the stringified error. -/
def settlePost (evmNetworks svmNetworks : List String) (ext : Ext) (env : Env) :
    List Event × Response SettleOkBody :=
  match ext.parseRequirements with
  | .error e => ([Event.parseRequirementsEv], .badRequest e)
  | .ok paymentRequirements =>
    match ext.parsePayload with
    | .error e => ([Event.parseRequirementsEv, Event.parsePayloadEv], .badRequest e)
    | .ok paymentPayload =>
      let network := paymentRequirements.network
      match selectSettleSigner evmNetworks svmNetworks ext env network with
      | (tr1, .error e) =>
        ([Event.parseRequirementsEv, Event.parsePayloadEv] ++ tr1, .badRequest e)
      | (tr1, .ok signer) =>
        match ext.settleResult with
        | .error e =>
          ([Event.parseRequirementsEv, Event.parsePayloadEv] ++ tr1 ++ [Event.settleEv signer],
           .badRequest e)
        | .ok settlement =>
          let cashbackPercent := ext.number (jsOr env.CASHBACK_PERCENT "2")
          let payer := payerOf paymentPayload
          match cashbackStep evmNetworks svmNetworks ext env network payer with
          | (tr2, .error e) =>
            ([Event.parseRequirementsEv, Event.parsePayloadEv] ++ tr1 ++ [Event.settleEv signer] ++ tr2,
             .badRequest e)
          | (tr2, .ok cashbackTxHash) =>
            ([Event.parseRequirementsEv, Event.parsePayloadEv] ++ tr1 ++ [Event.settleEv signer] ++ tr2,
             .ok { success := true
                   settlement := settlement
                   cashback := { amount := cashbackAmountConst
                                 txHash := cashbackTxHash
                                 percent := cashbackPercent } })

/-- Client selection of the verify handler (lines 110-117 of src/index.ts):
EVM allow-list gives a connected client, SVM allow-list gives a signer built
with SVM_PRIVATE_KEY, otherwise throw new Error("Invalid network"). -/
def selectVerifyClient (evmNetworks svmNetworks : List String) (ext : Ext) (env : Env)
    (network : String) : List Event × Except String Client :=
  if evmNetworks.contains network then
    match ext.createConnectedClientErr network with
    | some e => ([Event.createConnectedClientEv network], .error e)
    | none => ([Event.createConnectedClientEv network], .ok (.connectedClient network))
  else if svmNetworks.contains network then
    match ext.createSignerErr network env.SVM_PRIVATE_KEY with
    | some e => ([Event.createSignerEv network env.SVM_PRIVATE_KEY], .error e)
    | none =>
      ([Event.createSignerEv network env.SVM_PRIVATE_KEY],
       .ok (.signer network env.SVM_PRIVATE_KEY))
  else
    ([], .error (jsErrorString "Invalid network"))

/-- Embedding of the POST /verify handler (lines 102-126 of src/index.ts):
parse both bodies, select the verification client by network family, await
verify and answer its verdict; any thrown error is caught and answered as
400 with the fixed message "Invalid request". -/
def verifyPost (evmNetworks svmNetworks : List String) (ext : Ext) (env : Env) :
    List Event × Response VerifyResult :=
  match ext.parseRequirements with
  | .error _ => ([Event.parseRequirementsEv], .badRequest "Invalid request")
  | .ok paymentRequirements =>
    match ext.parsePayload with
    | .error _ => ([Event.parseRequirementsEv, Event.parsePayloadEv], .badRequest "Invalid request")
    | .ok _ =>
      match selectVerifyClient evmNetworks svmNetworks ext env
          paymentRequirements.network with
      | (tr1, .error _) =>
        ([Event.parseRequirementsEv, Event.parsePayloadEv] ++ tr1, .badRequest "Invalid request")
      | (tr1, .ok client) =>
        match ext.verifyResult with
        | .error _ =>
          ([Event.parseRequirementsEv, Event.parsePayloadEv] ++ tr1 ++ [Event.verifyEv client],
           .badRequest "Invalid request")
        | .ok v =>
          ([Event.parseRequirementsEv, Event.parsePayloadEv] ++ tr1 ++ [Event.verifyEv client], .ok v)

/-- Body returned by GET /supported. -/
structure SupportedBody where
  kinds : List SupportedKind
  deriving DecidableEq, Repr

/-- Embedding of the GET /supported handler (lines 139-168 of src/index.ts).
The handler has no try/catch, so its outcome is an Except: an error is an
exception escaping the handler, never a 400 JSON response.  When
SVM_PRIVATE_KEY is configured a fresh signer for solana-devnet is built on
every call solely to derive the fee payer. -/
def supportedGet (ext : Ext) (env : Env) :
    List Event × Except String SupportedBody :=
  let evmKinds : List SupportedKind :=
    if env.EVM_PRIVATE_KEY != "" then
      [{ x402Version := 1, scheme := "exact", network := "base-sepolia", extra := none }]
    else []
  if env.SVM_PRIVATE_KEY != "" then
    match ext.createSignerErr "solana-devnet" env.SVM_PRIVATE_KEY with
    | some e => ([Event.createSignerEv "solana-devnet" env.SVM_PRIVATE_KEY], .error e)
    | none =>
      let feePayer := ext.signerAddress "solana-devnet" env.SVM_PRIVATE_KEY
      ([Event.createSignerEv "solana-devnet" env.SVM_PRIVATE_KEY],
       .ok { kinds := evmKinds ++
               [{ x402Version := 1, scheme := "exact", network := "solana-devnet",
                  extra := some feePayer }] })
  else
    ([], .ok { kinds := evmKinds })

/-- Events belonging to the cashback transfer: the sendEvmCashback entry and
every ethers.js step performed inside it. -/
def isCashbackEv : Event → Bool
  | .sendEvmCashbackEv _ _ _ => true
  | .contractConstructEv => true
  | .decimalsEv => true
  | .transferEv _ _ => true
  | .waitEv _ => true
  | _ => false

/-- Events that are the awaited settle call. -/
def isSettleEv : Event → Bool
  | .settleEv _ => true
  | _ => false

/-- Events that construct a client or signer. -/
def isConstructionEv : Event → Bool
  | .createConnectedClientEv _ => true
  | .createSignerEv _ _ => true
  | _ => false

/-- Whether an Except carries a success value. -/
def exceptOk {ε α : Type} : Except ε α → Bool
  | .ok _ => true
  | .error _ => false

/-- Holds of a trace in which no cashback event occurs before the first
settle call. -/
def cashbackPrecededBySettle : List Event → Bool
  | [] => true
  | e :: rest =>
    if isSettleEv e then true
    else !isCashbackEv e && cashbackPrecededBySettle rest

/-- The trace of the settle-signer selection is empty or one createSigner
call keyed by the family-selected private key. -/
theorem selectSettleSigner_trace_cases (evmNetworks svmNetworks : List String)
    (ext : Ext) (env : Env) (network : String) :
    (selectSettleSigner evmNetworks svmNetworks ext env network).1 = [] ∨
    (selectSettleSigner evmNetworks svmNetworks ext env network).1 =
      [Event.createSignerEv network env.EVM_PRIVATE_KEY] ∨
    (selectSettleSigner evmNetworks svmNetworks ext env network).1 =
      [Event.createSignerEv network env.SVM_PRIVATE_KEY] := by
  unfold selectSettleSigner
  by_cases h1 : network ∈ evmNetworks
  · rcases h : ext.createSignerErr network env.EVM_PRIVATE_KEY with _ | e <;> simp [h1, h]
  · by_cases h2 : network ∈ svmNetworks
    · rcases h : ext.createSignerErr network env.SVM_PRIVATE_KEY with _ | e <;>
        simp [h1, h2, h]
    · simp [h1, h2]

/-- C1: in the POST /settle handler the cashback transfer is never invoked
before the settle call has returned: in every trace all cashback events come
strictly after the settle call event, and when the settle call throws the
trace contains no cashback event at all. -/
theorem settle_cashback_strictly_after_settlement
    (evmNetworks svmNetworks : List String) (ext : Ext) (env : Env) :
    cashbackPrecededBySettle (settlePost evmNetworks svmNetworks ext env).1 = true ∧
    (exceptOk ext.settleResult ||
      (settlePost evmNetworks svmNetworks ext env).1.all
        (fun e => !isCashbackEv e)) = true := by
  rcases hpr : ext.parseRequirements with e | preq
  · constructor <;>
      simp [settlePost, hpr, cashbackPrecededBySettle, isCashbackEv, isSettleEv]
  · rcases hpp : ext.parsePayload with e | ppay
    · constructor <;>
        simp [settlePost, hpr, hpp, cashbackPrecededBySettle, isCashbackEv, isSettleEv]
    · rcases hsel : selectSettleSigner evmNetworks svmNetworks ext env preq.network
        with ⟨tr1, res1⟩
      have htr1 := selectSettleSigner_trace_cases evmNetworks svmNetworks ext env
        preq.network
      rw [hsel] at htr1
      rcases res1 with e | signer
      · rcases htr1 with h | h | h <;> subst h <;> constructor <;>
          simp [settlePost, hpr, hpp, hsel, cashbackPrecededBySettle, isCashbackEv,
            isSettleEv]
      · rcases hst : ext.settleResult with e | s
        · rcases htr1 with h | h | h <;> subst h <;> constructor <;>
            simp [settlePost, hpr, hpp, hsel, hst, exceptOk, cashbackPrecededBySettle,
              isCashbackEv, isSettleEv]
        · rcases hcb : cashbackStep evmNetworks svmNetworks ext env preq.network
            (payerOf ppay) with ⟨tr2, res2⟩
          rcases res2 with e | h2 <;> rcases htr1 with h | h | h <;> subst h <;>
            constructor <;>
            simp [settlePost, hpr, hpp, hsel, hst, hcb, exceptOk,
              cashbackPrecededBySettle, isCashbackEv, isSettleEv]

/-- Events that are the sendEvmCashback invocation itself. -/
def isSendCashbackEv : Event → Bool
  | .sendEvmCashbackEv _ _ _ => true
  | _ => false

/-- Whether the scheme-specific payload carries an authorization object (the
test of line 194 of src/index.ts). -/
def hasAuthorizationFrom (ppay : PaymentPayload) : Bool :=
  match ppay.payload with
  | .authorization _ => true
  | .other => false

/-- With no extractable payer the cashback dispatch does nothing and leaves
the hash null. -/
theorem cashbackStep_no_payer (evmNetworks svmNetworks : List String) (ext : Ext)
    (env : Env) (network : String) :
    cashbackStep evmNetworks svmNetworks ext env network none = ([], .ok none) := by
  simp [cashbackStep, jsTruthy]

/-- Outside the EVM allow-list the cashback dispatch does nothing and leaves
the hash null, payer present or not. -/
theorem cashbackStep_not_evm (evmNetworks svmNetworks : List String) (ext : Ext)
    (env : Env) (network : String) (p : String) (h : network ∉ evmNetworks) :
    cashbackStep evmNetworks svmNetworks ext env network (some p) = ([], .ok none) := by
  by_cases hp : p = ""
  · simp [cashbackStep, jsTruthy, hp]
  · simp [cashbackStep, jsTruthy, hp, h]

/-- With a truthy payer on an EVM network the cashback dispatch runs
sendEvmCashback and wraps its outcome. -/
theorem cashbackStep_evm (evmNetworks svmNetworks : List String) (ext : Ext)
    (env : Env) (network : String) (p : String) (hp : p ≠ "")
    (h : network ∈ evmNetworks) :
    cashbackStep evmNetworks svmNetworks ext env network (some p) =
      ((sendEvmCashback ext.evm p env.EVM_CASHBACK_TOKEN cashbackAmountConst).1,
       match (sendEvmCashback ext.evm p env.EVM_CASHBACK_TOKEN cashbackAmountConst).2 with
       | .error e => .error e
       | .ok hsh => .ok (some hsh)) := by
  rcases hs : sendEvmCashback ext.evm p env.EVM_CASHBACK_TOKEN cashbackAmountConst
    with ⟨tr, r⟩
  have hs1 : sendEvmCashback ext.evm p env.EVM_CASHBACK_TOKEN 1 = (tr, r) := hs
  rcases r with e | hsh <;>
    simp [cashbackStep, jsTruthy, hp, h, hs, hs1, cashbackAmountConst]

/-- Every trace of sendEvmCashback records the invocation itself. -/
theorem sendEvmCashback_any_send (ext : EvmExt) (toAddr : String)
    (tok : Option String) (amount : Nat) :
    (sendEvmCashback ext toAddr tok amount).1.any isSendCashbackEv = true := by
  unfold sendEvmCashback
  rcases hc : ext.constructErr with _ | e <;> simp only [hc]
  · split
    · simp [isSendCashbackEv]
    · split <;> simp [isSendCashbackEv]
  · simp [isSendCashbackEv]

/-- Concrete EVM allow-list used by the witnesses (a member of
SupportedEVMNetworks). -/
def sampleEvmNetworks : List String := ["base-sepolia"]

/-- Concrete SVM allow-list used by the witnesses (a member of
SupportedSVMNetworks). -/
def sampleSvmNetworks : List String := ["solana-devnet"]

/-- Concrete environment used by the witnesses. -/
def sampleEnv : Env :=
  { EVM_PRIVATE_KEY := "0xabc", SVM_PRIVATE_KEY := "svmkey",
    EVM_CASHBACK_TOKEN := some "0xtoken", CASHBACK_PERCENT := none }

/-- Concrete ethers layer in which every call succeeds. -/
def sampleEvmExt : EvmExt :=
  { constructErr := none, decimalsResult := .ok 6,
    transferResult := fun _ _ => .ok "0xcashbacktx",
    waitResult := fun _ => .ok () }

/-- Concrete oracle for a fully successful EVM settle request. -/
def sampleExt : Ext :=
  { parseRequirements := .ok { network := "base-sepolia" },
    parsePayload := .ok { payload := .authorization "0xpayer" },
    createConnectedClientErr := fun _ => none,
    createSignerErr := fun _ _ => none,
    verifyResult := .ok { isValid := true },
    settleResult := .ok { success := true, transaction := "0xsettletx" },
    number := fun s => if s = "2" then (2 : Int) else 0,
    signerAddress := fun _ _ => some "FeePayer111",
    evm := sampleEvmExt }

/-- Oracle in which settlement succeeds but the cashback transfer throws. -/
def sampleExtCashbackFail : Ext :=
  { sampleExt with
    evm := { sampleEvmExt with
             transferResult := fun _ _ => .error "Error: transfer reverted" } }

/-- C2: when the settle call succeeds and the cashback transfer then throws,
the handler answers 400 with the stringified error and the already-computed
settlement result is discarded (the badRequest body carries only the error
string). -/
theorem settle_cashback_failure_discards_settlement
    (evmNetworks svmNetworks : List String) (ext : Ext) (env : Env)
    (preq : PaymentRequirements) (ppay : PaymentPayload) (signer : Client)
    (s : SettlementResult) (err : String)
    (hpr : ext.parseRequirements = .ok preq)
    (hpp : ext.parsePayload = .ok ppay)
    (hsel : (selectSettleSigner evmNetworks svmNetworks ext env preq.network).2 =
      .ok signer)
    (hst : ext.settleResult = .ok s)
    (hcb : (cashbackStep evmNetworks svmNetworks ext env preq.network
      (payerOf ppay)).2 = .error err) :
    (settlePost evmNetworks svmNetworks ext env).2 = .badRequest err := by
  rcases hselp : selectSettleSigner evmNetworks svmNetworks ext env preq.network
    with ⟨tr1, res1⟩
  rcases hcbp : cashbackStep evmNetworks svmNetworks ext env preq.network (payerOf ppay)
    with ⟨tr2, res2⟩
  rw [hselp] at hsel
  rw [hcbp] at hcb
  simp at hsel hcb
  subst hsel
  subst hcb
  simp [settlePost, hpr, hpp, hselp, hst, hcbp]

/-- Closed instance of C2: with the sample oracle whose transfer reverts,
the settle route answers 400 with the stringified revert error. -/
theorem settle_cashback_failure_discards_settlement_witness :
    (settlePost sampleEvmNetworks sampleSvmNetworks sampleExtCashbackFail
      sampleEnv).2 = .badRequest "Error: transfer reverted" :=
  settle_cashback_failure_discards_settlement sampleEvmNetworks sampleSvmNetworks
    sampleExtCashbackFail sampleEnv
    { network := "base-sepolia" } { payload := .authorization "0xpayer" }
    (.signer "base-sepolia" "0xabc")
    { success := true, transaction := "0xsettletx" } "Error: transfer reverted"
    rfl rfl rfl rfl rfl

/-- Shape of the successful settle response body built at lines 213-221 of
src/index.ts. -/
def okSettleBody (s : SettlementResult) (txHash : Option String)
    (percent : Int) : SettleOkBody :=
  { success := true, settlement := s,
    cashback := { amount := cashbackAmountConst, txHash := txHash,
                  percent := percent } }

/-- C3: in POST /settle a cashback transfer is attempted iff the payload
carries an authorization.from payer, the static cashback amount is positive,
and the network is in the EVM allow-list; in every other case no transfer is
attempted and the response reports a null cashback hash.  The hypothesis
hfrom reflects the payload schema, which only accepts nonempty from
addresses. -/
theorem settle_cashback_attempt_iff_gate
    (evmNetworks svmNetworks : List String) (ext : Ext) (env : Env)
    (preq : PaymentRequirements) (ppay : PaymentPayload) (signer : Client)
    (s : SettlementResult)
    (hpr : ext.parseRequirements = .ok preq)
    (hpp : ext.parsePayload = .ok ppay)
    (hsel : (selectSettleSigner evmNetworks svmNetworks ext env preq.network).2 =
      .ok signer)
    (hst : ext.settleResult = .ok s)
    (hfrom : ∀ f, ppay.payload = .authorization f → f ≠ "") :
    ((settlePost evmNetworks svmNetworks ext env).1.any isSendCashbackEv = true ↔
      (hasAuthorizationFrom ppay = true ∧ 0 < cashbackAmountConst ∧
        preq.network ∈ evmNetworks)) ∧
    (¬(hasAuthorizationFrom ppay = true ∧ preq.network ∈ evmNetworks) →
      ∃ body, (settlePost evmNetworks svmNetworks ext env).2 = Response.ok body ∧
        body.cashback.txHash = none) := by
  rcases hselp : selectSettleSigner evmNetworks svmNetworks ext env preq.network
    with ⟨tr1, res1⟩
  rw [hselp] at hsel
  simp at hsel
  subst hsel
  have htr1 := selectSettleSigner_trace_cases evmNetworks svmNetworks ext env
    preq.network
  rw [hselp] at htr1
  simp at htr1
  by_cases hevm : preq.network ∈ evmNetworks
  · rcases hpl : ppay.payload with f | _
    · have hf := hfrom f hpl
      have hpayer : payerOf ppay = some f := by simp [payerOf, hpl]
      have hcb := cashbackStep_evm evmNetworks svmNetworks ext env preq.network f hf hevm
      rcases hs : sendEvmCashback ext.evm f env.EVM_CASHBACK_TOKEN cashbackAmountConst
        with ⟨trc, resc⟩
      rw [hs] at hcb
      have hany := sendEvmCashback_any_send ext.evm f env.EVM_CASHBACK_TOKEN
        cashbackAmountConst
      rw [hs] at hany
      rcases resc with e | hsh
      · refine ⟨⟨fun _ => ⟨by simp [hasAuthorizationFrom, hpl], by decide, hevm⟩,
          fun _ => ?_⟩,
          fun hcontr => absurd ⟨by simp [hasAuthorizationFrom, hpl], hevm⟩ hcontr⟩
        rcases htr1 with h | h | h <;> subst h <;>
          simp [settlePost, hpr, hpp, hselp, hst, hpayer, hcb, isSendCashbackEv, hany]
      · refine ⟨⟨fun _ => ⟨by simp [hasAuthorizationFrom, hpl], by decide, hevm⟩,
          fun _ => ?_⟩,
          fun hcontr => absurd ⟨by simp [hasAuthorizationFrom, hpl], hevm⟩ hcontr⟩
        rcases htr1 with h | h | h <;> subst h <;>
          simp [settlePost, hpr, hpp, hselp, hst, hpayer, hcb, isSendCashbackEv, hany]
    · have hpayer : payerOf ppay = none := by simp [payerOf, hpl]
      have hcb := cashbackStep_no_payer evmNetworks svmNetworks ext env preq.network
      refine ⟨⟨fun hany => ?_, fun hgate => ?_⟩, fun _ => ?_⟩
      · exfalso
        rcases htr1 with h | h | h <;> subst h <;>
          simp [settlePost, hpr, hpp, hselp, hst, hpayer, hcb, isSendCashbackEv] at hany
      · exfalso
        rcases hgate with ⟨hauth, _, _⟩
        simp [hasAuthorizationFrom, hpl] at hauth
      · refine ⟨okSettleBody s none (ext.number (jsOr env.CASHBACK_PERCENT "2")),
          ?_, rfl⟩
        simp [settlePost, okSettleBody, hpr, hpp, hselp, hst, hpayer, hcb]
  · rcases hpl : ppay.payload with f | _
    · have hpayer : payerOf ppay = some f := by simp [payerOf, hpl]
      have hcb := cashbackStep_not_evm evmNetworks svmNetworks ext env preq.network f hevm
      refine ⟨⟨fun hany => ?_, fun hgate => ?_⟩, fun _ => ?_⟩
      · exfalso
        rcases htr1 with h | h | h <;> subst h <;>
          simp [settlePost, hpr, hpp, hselp, hst, hpayer, hcb, isSendCashbackEv] at hany
      · exact absurd hgate.2.2 hevm
      · refine ⟨okSettleBody s none (ext.number (jsOr env.CASHBACK_PERCENT "2")),
          ?_, rfl⟩
        simp [settlePost, okSettleBody, hpr, hpp, hselp, hst, hpayer, hcb]
    · have hpayer : payerOf ppay = none := by simp [payerOf, hpl]
      have hcb := cashbackStep_no_payer evmNetworks svmNetworks ext env preq.network
      refine ⟨⟨fun hany => ?_, fun hgate => ?_⟩, fun _ => ?_⟩
      · exfalso
        rcases htr1 with h | h | h <;> subst h <;>
          simp [settlePost, hpr, hpp, hselp, hst, hpayer, hcb, isSendCashbackEv] at hany
      · exact absurd hgate.2.2 hevm
      · refine ⟨okSettleBody s none (ext.number (jsOr env.CASHBACK_PERCENT "2")),
          ?_, rfl⟩
        simp [settlePost, okSettleBody, hpr, hpp, hselp, hst, hpayer, hcb]

/-- Closed instance of C3: with the sample oracle (authorization payer on an
EVM network) the cashback transfer is attempted. -/
theorem settle_cashback_attempt_iff_gate_witness :
    (settlePost sampleEvmNetworks sampleSvmNetworks sampleExt sampleEnv).1.any
      isSendCashbackEv = true :=
  (settle_cashback_attempt_iff_gate sampleEvmNetworks sampleSvmNetworks sampleExt
    sampleEnv { network := "base-sepolia" } { payload := .authorization "0xpayer" }
    (.signer "base-sepolia" "0xabc") { success := true, transaction := "0xsettletx" }
    rfl rfl rfl rfl
    (fun f h => by
      injection h with h1
      subst h1
      decide)).1.mpr ⟨rfl, by decide, by decide⟩

/-- C4: every successful settle response reports the fixed cashback amount 1
regardless of percent and payment size, and the percent is the Number
coercion of CASHBACK_PERCENT with the string default "2"; with the variable
unset (and Number("2") = 2) the reported percent is 2.  The percent never
enters the amount. -/
theorem settle_cashback_amount_fixed_percent_reported
    (evmNetworks svmNetworks : List String) (ext : Ext) (env : Env)
    (body : SettleOkBody)
    (hok : (settlePost evmNetworks svmNetworks ext env).2 = Response.ok body) :
    body.cashback.amount = 1 ∧
    body.cashback.percent = ext.number (jsOr env.CASHBACK_PERCENT "2") ∧
    (env.CASHBACK_PERCENT = none → ext.number "2" = 2 →
      body.cashback.percent = 2) := by
  rcases hpr : ext.parseRequirements with e | preq
  · simp [settlePost, hpr] at hok
  · rcases hpp : ext.parsePayload with e | ppay
    · simp [settlePost, hpr, hpp] at hok
    · rcases hselp : selectSettleSigner evmNetworks svmNetworks ext env preq.network
        with ⟨tr1, res1⟩
      rcases res1 with e | signer
      · simp [settlePost, hpr, hpp, hselp] at hok
      · rcases hst : ext.settleResult with e | s
        · simp [settlePost, hpr, hpp, hselp, hst] at hok
        · rcases hcbp : cashbackStep evmNetworks svmNetworks ext env preq.network
            (payerOf ppay) with ⟨tr2, res2⟩
          rcases res2 with e | h2
          · simp [settlePost, hpr, hpp, hselp, hst, hcbp] at hok
          · simp [settlePost, hpr, hpp, hselp, hst, hcbp] at hok
            subst hok
            refine ⟨rfl, rfl, fun hnone h2eq => ?_⟩
            simp [jsOr, hnone, h2eq, cashbackAmountConst]

/-- Closed instance of C4: the sample successful settle response reports
amount 1 and percent 2 (CASHBACK_PERCENT unset). -/
theorem settle_cashback_amount_fixed_percent_reported_witness :
    (okSettleBody { success := true, transaction := "0xsettletx" }
      (some "0xcashbacktx") 2).cashback.amount = 1 ∧
    (okSettleBody { success := true, transaction := "0xsettletx" }
      (some "0xcashbacktx") 2).cashback.percent = 2 :=
  have h := settle_cashback_amount_fixed_percent_reported sampleEvmNetworks
    sampleSvmNetworks sampleExt sampleEnv
    (okSettleBody { success := true, transaction := "0xsettletx" }
      (some "0xcashbacktx") 2) (by decide)
  ⟨h.1, h.2.2 rfl (by decide)⟩

/-- C5: POST /verify selects its verification client by network family: an
EVM network always gets a connected client (never a signer), an SVM network
always gets a signer built with SVM_PRIVATE_KEY, and exactly one of the two
factories runs per call.  The hypothesis hdisj records that the imported
EVM and SVM allow-lists are disjoint. -/
theorem verify_client_selection
    (evmNetworks svmNetworks : List String) (ext : Ext) (env : Env)
    (preq : PaymentRequirements) (ppay : PaymentPayload)
    (hpr : ext.parseRequirements = .ok preq)
    (hpp : ext.parsePayload = .ok ppay)
    (hdisj : ∀ n, n ∈ evmNetworks → n ∉ svmNetworks) :
    (preq.network ∈ evmNetworks →
      (verifyPost evmNetworks svmNetworks ext env).1.filter isConstructionEv =
        [Event.createConnectedClientEv preq.network] ∧
      ∀ c, Event.verifyEv c ∈ (verifyPost evmNetworks svmNetworks ext env).1 →
        c = Client.connectedClient preq.network) ∧
    (preq.network ∈ svmNetworks →
      (verifyPost evmNetworks svmNetworks ext env).1.filter isConstructionEv =
        [Event.createSignerEv preq.network env.SVM_PRIVATE_KEY] ∧
      ∀ c, Event.verifyEv c ∈ (verifyPost evmNetworks svmNetworks ext env).1 →
        c = Client.signer preq.network env.SVM_PRIVATE_KEY) := by
  constructor
  · intro hevm
    have hsv : (selectVerifyClient evmNetworks svmNetworks ext env preq.network).1 =
        [Event.createConnectedClientEv preq.network] ∧
        ((selectVerifyClient evmNetworks svmNetworks ext env preq.network).2 =
          .ok (Client.connectedClient preq.network) ∨
         exceptOk (selectVerifyClient evmNetworks svmNetworks ext env
           preq.network).2 = false) := by
      unfold selectVerifyClient
      rcases h : ext.createConnectedClientErr preq.network with _ | e <;>
        simp [hevm, h, exceptOk]
    rcases hsvp : selectVerifyClient evmNetworks svmNetworks ext env preq.network
      with ⟨tr1, res1⟩
    rw [hsvp] at hsv
    simp at hsv
    rcases hsv with ⟨htr1, hres⟩
    subst htr1
    rcases res1 with e | client
    · constructor
      · simp [verifyPost, hpr, hpp, hsvp, isConstructionEv]
      · intro c hc
        simp [verifyPost, hpr, hpp, hsvp] at hc
    · rcases hres with hres | hres
      · simp at hres
        subst hres
        rcases hv : ext.verifyResult with e | v <;>
          constructor <;>
          simp [verifyPost, hpr, hpp, hsvp, hv, isConstructionEv]
      · simp [exceptOk] at hres
  · intro hsvm
    have hevm : preq.network ∉ evmNetworks := fun hc => hdisj preq.network hc hsvm
    have hsv : (selectVerifyClient evmNetworks svmNetworks ext env preq.network).1 =
        [Event.createSignerEv preq.network env.SVM_PRIVATE_KEY] ∧
        ((selectVerifyClient evmNetworks svmNetworks ext env preq.network).2 =
          .ok (Client.signer preq.network env.SVM_PRIVATE_KEY) ∨
         exceptOk (selectVerifyClient evmNetworks svmNetworks ext env
           preq.network).2 = false) := by
      unfold selectVerifyClient
      rcases h : ext.createSignerErr preq.network env.SVM_PRIVATE_KEY with _ | e <;>
        simp [hevm, hsvm, h, exceptOk]
    rcases hsvp : selectVerifyClient evmNetworks svmNetworks ext env preq.network
      with ⟨tr1, res1⟩
    rw [hsvp] at hsv
    simp at hsv
    rcases hsv with ⟨htr1, hres⟩
    subst htr1
    rcases res1 with e | client
    · constructor
      · simp [verifyPost, hpr, hpp, hsvp, isConstructionEv]
      · intro c hc
        simp [verifyPost, hpr, hpp, hsvp] at hc
    · rcases hres with hres | hres
      · simp at hres
        subst hres
        rcases hv : ext.verifyResult with e | v <;>
          constructor <;>
          simp [verifyPost, hpr, hpp, hsvp, hv, isConstructionEv]
      · simp [exceptOk] at hres

/-- Closed instance of C5: for the sample EVM request, exactly the connected
client construction appears in the verify trace. -/
theorem verify_client_selection_witness :
    (verifyPost sampleEvmNetworks sampleSvmNetworks sampleExt sampleEnv).1.filter
      isConstructionEv = [Event.createConnectedClientEv "base-sepolia"] :=
  ((verify_client_selection sampleEvmNetworks sampleSvmNetworks sampleExt sampleEnv
    { network := "base-sepolia" } { payload := .authorization "0xpayer" }
    rfl rfl
    (fun n hn => by
      simp [sampleEvmNetworks] at hn
      subst hn
      decide)).1 (by decide)).1

/-- C6: for a validated network in neither allow-list, both POST /verify and
POST /settle answer 400 (the verify route with its generic message, the
settle route with the stringified invalid-network error) and neither route
records any client or signer construction. -/
theorem invalid_network_rejected_without_construction
    (evmNetworks svmNetworks : List String) (ext : Ext) (env : Env)
    (preq : PaymentRequirements) (ppay : PaymentPayload)
    (hpr : ext.parseRequirements = .ok preq)
    (hpp : ext.parsePayload = .ok ppay)
    (hevm : preq.network ∉ evmNetworks)
    (hsvm : preq.network ∉ svmNetworks) :
    (verifyPost evmNetworks svmNetworks ext env).2 = .badRequest "Invalid request" ∧
    (verifyPost evmNetworks svmNetworks ext env).1.filter isConstructionEv = [] ∧
    (settlePost evmNetworks svmNetworks ext env).2 =
      .badRequest (jsErrorString "Invalid network") ∧
    (settlePost evmNetworks svmNetworks ext env).1.filter isConstructionEv = [] := by
  have hsv : selectVerifyClient evmNetworks svmNetworks ext env preq.network =
      ([], .error (jsErrorString "Invalid network")) := by
    simp [selectVerifyClient, hevm, hsvm]
  have hss : selectSettleSigner evmNetworks svmNetworks ext env preq.network =
      ([], .error (jsErrorString "Invalid network")) := by
    simp [selectSettleSigner, hevm, hsvm]
  refine ⟨?_, ?_, ?_, ?_⟩ <;>
    simp [verifyPost, settlePost, hpr, hpp, hsv, hss, isConstructionEv]

/-- Oracle whose validated requirements name a network outside both
allow-lists. -/
def sampleExtUnknownNetwork : Ext :=
  { sampleExt with parseRequirements := .ok { network := "tron" } }

/-- Closed instance of C6: the network tron is rejected with 400 by both
routes. -/
theorem invalid_network_rejected_without_construction_witness :
    (verifyPost sampleEvmNetworks sampleSvmNetworks sampleExtUnknownNetwork
      sampleEnv).2 = .badRequest "Invalid request" ∧
    (settlePost sampleEvmNetworks sampleSvmNetworks sampleExtUnknownNetwork
      sampleEnv).2 = .badRequest (jsErrorString "Invalid network") :=
  have h := invalid_network_rejected_without_construction sampleEvmNetworks
    sampleSvmNetworks sampleExtUnknownNetwork sampleEnv
    { network := "tron" } { payload := .authorization "0xpayer" }
    rfl rfl (by decide) (by decide)
  ⟨h.1, h.2.2.1⟩

/-- C7: a decimals() lookup failure inside sendEvmCashback does not abort the
transfer: the whole run is the run with decimals 18, and once construction
succeeded the transfer is submitted with the amount scaled by 10 ^ 18. -/
theorem sendEvmCashback_decimals_fallback
    (ext : EvmExt) (toAddr : String) (tok : Option String) (amount : Nat)
    (err : String) (hdec : ext.decimalsResult = .error err) :
    sendEvmCashback ext toAddr tok amount =
      sendEvmCashback { ext with decimalsResult := .ok 18 } toAddr tok amount ∧
    (ext.constructErr = none →
      Event.transferEv toAddr (amount * 10 ^ 18) ∈
        (sendEvmCashback ext toAddr tok amount).1) := by
  constructor
  · rcases hc : ext.constructErr with _ | e <;>
      simp [sendEvmCashback, hc, hdec]
  · intro hc
    simp only [sendEvmCashback, hc, hdec]
    split <;> (try split) <;> simp

/-- Ethers layer whose decimals() lookup throws. -/
def sampleEvmExtDecimalsFail : EvmExt :=
  { sampleEvmExt with decimalsResult := .error "Error: missing revert data" }

/-- Closed instance of C7: with a failing decimals() lookup the transfer is
still submitted, scaled by 18 decimals. -/
theorem sendEvmCashback_decimals_fallback_witness :
    sendEvmCashback sampleEvmExtDecimalsFail "0xpayer" (some "0xtoken") 1 =
      sendEvmCashback { sampleEvmExtDecimalsFail with decimalsResult := .ok 18 }
        "0xpayer" (some "0xtoken") 1 ∧
    Event.transferEv "0xpayer" (1 * 10 ^ 18) ∈
      (sendEvmCashback sampleEvmExtDecimalsFail "0xpayer" (some "0xtoken") 1).1 :=
  have h := sendEvmCashback_decimals_fallback sampleEvmExtDecimalsFail "0xpayer"
    (some "0xtoken") 1 "Error: missing revert data" rfl
  ⟨h.1, h.2 rfl⟩

/-- Modelled from the spec: the x402 createSigner factory is outside src/;
section 4.2 of the spec states that settlement-signer construction fails
with a configuration error when the private key selected for the resolved
family is empty or missing.  The repository itself only selects which key to
pass (lines 177-184 of src/index.ts). -/
def specCreateSignerErr : String → String → Option String :=
  fun _ key => if key = "" then some (jsErrorString "invalid private key") else none

/-- C8: with the spec-modelled createSigner, a settle request whose resolved
family has an empty private key answers 400 and never reaches the settle
call. -/
theorem settle_missing_family_key_fails
    (evmNetworks svmNetworks : List String) (ext : Ext) (env : Env)
    (preq : PaymentRequirements) (ppay : PaymentPayload)
    (hpr : ext.parseRequirements = .ok preq)
    (hpp : ext.parsePayload = .ok ppay)
    (hcs : ext.createSignerErr = specCreateSignerErr) :
    (preq.network ∈ evmNetworks → env.EVM_PRIVATE_KEY = "" →
      (settlePost evmNetworks svmNetworks ext env).2 =
        .badRequest (jsErrorString "invalid private key") ∧
      (settlePost evmNetworks svmNetworks ext env).1.all
        (fun e => !isSettleEv e) = true) ∧
    (preq.network ∉ evmNetworks → preq.network ∈ svmNetworks →
      env.SVM_PRIVATE_KEY = "" →
      (settlePost evmNetworks svmNetworks ext env).2 =
        .badRequest (jsErrorString "invalid private key") ∧
      (settlePost evmNetworks svmNetworks ext env).1.all
        (fun e => !isSettleEv e) = true) := by
  constructor
  · intro hevm hkey
    have hss : selectSettleSigner evmNetworks svmNetworks ext env preq.network =
        ([Event.createSignerEv preq.network ""],
         .error (jsErrorString "invalid private key")) := by
      simp [selectSettleSigner, hevm, hcs, specCreateSignerErr, hkey]
    constructor <;> simp [settlePost, hpr, hpp, hss, isSettleEv]
  · intro hevm hsvm hkey
    have hss : selectSettleSigner evmNetworks svmNetworks ext env preq.network =
        ([Event.createSignerEv preq.network ""],
         .error (jsErrorString "invalid private key")) := by
      simp [selectSettleSigner, hevm, hsvm, hcs, specCreateSignerErr, hkey]
    constructor <;> simp [settlePost, hpr, hpp, hss, isSettleEv]

/-- Environment with the EVM private key empty. -/
def sampleEnvNoEvmKey : Env := { sampleEnv with EVM_PRIVATE_KEY := "" }

/-- Oracle using the spec-modelled createSigner failure behavior. -/
def sampleExtSpecSigner : Ext :=
  { sampleExt with createSignerErr := specCreateSignerErr }

/-- Closed instance of C8: an EVM settle request with an empty EVM key fails
with the configuration error. -/
theorem settle_missing_family_key_fails_witness :
    (settlePost sampleEvmNetworks sampleSvmNetworks sampleExtSpecSigner
      sampleEnvNoEvmKey).2 = .badRequest (jsErrorString "invalid private key") :=
  ((settle_missing_family_key_fails sampleEvmNetworks sampleSvmNetworks
    sampleExtSpecSigner sampleEnvNoEvmKey { network := "base-sepolia" }
    { payload := .authorization "0xpayer" } rfl rfl rfl).1 (by decide) rfl).1

/-- With an empty-string payer (falsy in JavaScript) the cashback dispatch
does nothing. -/
theorem cashbackStep_empty_payer (evmNetworks svmNetworks : List String) (ext : Ext)
    (env : Env) (network : String) :
    cashbackStep evmNetworks svmNetworks ext env network (some "") = ([], .ok none) := by
  simp [cashbackStep, jsTruthy]

/-- C9: the settle handler never inspects the settlement receipt: whenever
the settle call returns a receipt s without throwing, the cashback step is
attempted exactly under the payer/amount/network gating, and any successful
response carries success true and the receipt verbatim, even when the
receipt's own success flag is false. -/
theorem settle_receipt_contents_not_inspected
    (evmNetworks svmNetworks : List String) (ext : Ext) (env : Env)
    (preq : PaymentRequirements) (ppay : PaymentPayload) (signer : Client)
    (s : SettlementResult)
    (hpr : ext.parseRequirements = .ok preq)
    (hpp : ext.parsePayload = .ok ppay)
    (hsel : (selectSettleSigner evmNetworks svmNetworks ext env preq.network).2 =
      .ok signer)
    (hst : ext.settleResult = .ok s) :
    ((settlePost evmNetworks svmNetworks ext env).1.any isSendCashbackEv =
      (jsTruthy (payerOf ppay) && decide (0 < cashbackAmountConst) &&
        evmNetworks.contains preq.network)) ∧
    (∀ body, (settlePost evmNetworks svmNetworks ext env).2 = Response.ok body →
      body.success = true ∧ body.settlement = s) := by
  rcases hselp : selectSettleSigner evmNetworks svmNetworks ext env preq.network
    with ⟨tr1, res1⟩
  rw [hselp] at hsel
  simp at hsel
  subst hsel
  have htr1 := selectSettleSigner_trace_cases evmNetworks svmNetworks ext env
    preq.network
  rw [hselp] at htr1
  simp at htr1
  rcases hpl : ppay.payload with f | _
  · have hpayer : payerOf ppay = some f := by simp [payerOf, hpl]
    by_cases hf : f = ""
    · subst hf
      have hcb := cashbackStep_empty_payer evmNetworks svmNetworks ext env preq.network
      constructor
      · rcases htr1 with h | h | h <;> subst h <;>
          simp [settlePost, hpr, hpp, hselp, hst, hpayer, hcb, isSendCashbackEv,
            jsTruthy]
      · intro body hbody
        simp [settlePost, hpr, hpp, hselp, hst, hpayer, hcb] at hbody
        subst hbody
        exact ⟨rfl, rfl⟩
    · by_cases hevm : preq.network ∈ evmNetworks
      · have hcb := cashbackStep_evm evmNetworks svmNetworks ext env preq.network f
          hf hevm
        rcases hs : sendEvmCashback ext.evm f env.EVM_CASHBACK_TOKEN cashbackAmountConst
          with ⟨trc, resc⟩
        rw [hs] at hcb
        have hany := sendEvmCashback_any_send ext.evm f env.EVM_CASHBACK_TOKEN
          cashbackAmountConst
        rw [hs] at hany
        rcases resc with e | hsh
        · constructor
          · rcases htr1 with h | h | h <;> subst h <;>
              simp [settlePost, hpr, hpp, hselp, hst, hpayer, hcb, isSendCashbackEv,
                jsTruthy, hf, hevm, hany, cashbackAmountConst]
          · intro body hbody
            simp [settlePost, hpr, hpp, hselp, hst, hpayer, hcb] at hbody
        · constructor
          · rcases htr1 with h | h | h <;> subst h <;>
              simp [settlePost, hpr, hpp, hselp, hst, hpayer, hcb, isSendCashbackEv,
                jsTruthy, hf, hevm, hany, cashbackAmountConst]
          · intro body hbody
            simp [settlePost, hpr, hpp, hselp, hst, hpayer, hcb] at hbody
            subst hbody
            exact ⟨rfl, rfl⟩
      · have hcb := cashbackStep_not_evm evmNetworks svmNetworks ext env preq.network f
          hevm
        constructor
        · rcases htr1 with h | h | h <;> subst h <;>
            simp [settlePost, hpr, hpp, hselp, hst, hpayer, hcb, isSendCashbackEv,
              jsTruthy, hf, hevm, cashbackAmountConst]
        · intro body hbody
          simp [settlePost, hpr, hpp, hselp, hst, hpayer, hcb] at hbody
          subst hbody
          exact ⟨rfl, rfl⟩
  · have hpayer : payerOf ppay = none := by simp [payerOf, hpl]
    have hcb := cashbackStep_no_payer evmNetworks svmNetworks ext env preq.network
    constructor
    · rcases htr1 with h | h | h <;> subst h <;>
        simp [settlePost, hpr, hpp, hselp, hst, hpayer, hcb, isSendCashbackEv, jsTruthy]
    · intro body hbody
      simp [settlePost, hpr, hpp, hselp, hst, hpayer, hcb] at hbody
      subst hbody
      exact ⟨rfl, rfl⟩

/-- Oracle whose settle call returns a receipt that itself reports a failed
settlement. -/
def sampleExtFailedReceipt : Ext :=
  { sampleExt with settleResult := .ok { success := false, transaction := "0xdead" } }

/-- Closed instance of C9: even with a receipt whose own success flag is
false, the response body has success true and forwards the receipt. -/
theorem settle_receipt_contents_not_inspected_witness :
    (okSettleBody { success := false, transaction := "0xdead" }
      (some "0xcashbacktx") 2).success = true ∧
    (okSettleBody { success := false, transaction := "0xdead" }
      (some "0xcashbacktx") 2).settlement =
      { success := false, transaction := "0xdead" } :=
  (settle_receipt_contents_not_inspected sampleEvmNetworks sampleSvmNetworks
    sampleExtFailedReceipt sampleEnv { network := "base-sepolia" }
    { payload := .authorization "0xpayer" } (.signer "base-sepolia" "0xabc")
    { success := false, transaction := "0xdead" } rfl rfl rfl rfl).2
    (okSettleBody { success := false, transaction := "0xdead" }
      (some "0xcashbacktx") 2) (by decide)

/-- C10: GET /supported has no try/catch: whenever SVM_PRIVATE_KEY is set,
every call constructs a fresh solana-devnet signer solely to derive the fee
payer, and when that construction throws the handler's outcome is the
escaping exception, never a 400 JSON error response. -/
theorem supported_svm_signer_exception_uncaught
    (ext : Ext) (env : Env) (hsvm : env.SVM_PRIVATE_KEY ≠ "") :
    Event.createSignerEv "solana-devnet" env.SVM_PRIVATE_KEY ∈
      (supportedGet ext env).1 ∧
    (∀ e, ext.createSignerErr "solana-devnet" env.SVM_PRIVATE_KEY = some e →
      (supportedGet ext env).2 = .error e) := by
  have hb : (env.SVM_PRIVATE_KEY != "") = true := by simp [hsvm]
  constructor
  · unfold supportedGet
    rcases h : ext.createSignerErr "solana-devnet" env.SVM_PRIVATE_KEY with _ | e <;>
      simp [hb, h]
  · intro e he
    simp [supportedGet, hb, he]

/-- Oracle whose createSigner always throws. -/
def sampleExtSignerThrows : Ext :=
  { sampleExt with createSignerErr := fun _ _ => some "Error: bad key" }

/-- Closed instance of C10: with a throwing createSigner and a configured SVM
key, the supported route constructs the signer and the exception escapes. -/
theorem supported_svm_signer_exception_uncaught_witness :
    Event.createSignerEv "solana-devnet" "svmkey" ∈
      (supportedGet sampleExtSignerThrows sampleEnv).1 ∧
    (supportedGet sampleExtSignerThrows sampleEnv).2 = .error "Error: bad key" :=
  have h := supported_svm_signer_exception_uncaught sampleExtSignerThrows sampleEnv
    (by decide)
  ⟨h.1, h.2 "Error: bad key" rfl⟩

end X402Facilitator
